import Mathlib

/-!
Shallow embedding of the ChainInsight supply-chain cleaning ETL
(`clean_data.py`, function `clean_supply_chain_data`) and proofs of the
specification claims about it.

Modelling conventions:
* A CSV cell of a textual column (`Unit_Cost_Raw`, `Current_Stock_Raw`) is
  `Option String`: `none` is the missing/NaN cell, `some s` a string cell
  (pandas reads every non-empty cell of an object column as a string).
* Missing numeric values (pandas NaN) are modelled as `none : Option ℚ`;
  float arithmetic on clean data is exact rational arithmetic.
* The NaN-comparison semantics of the source (`x < NaN` is `False`) is made
  explicit in `ltOpt`.
-/

namespace ChainInsight

/-- Whitespace test used by the strip model (the claims only exercise
plain spaces; tabs and line breaks are included for good measure). -/
def isSpaceChar (c : Char) : Bool :=
  c == ' ' || c == '\t' || c == '\n' || c == '\r'

/-- Model of Python `str.strip()` (used at lines 29, 37, 51, 102):
remove leading and trailing whitespace. -/
def pyStrip (s : String) : String :=
  String.mk (((s.data.dropWhile isSpaceChar).reverse.dropWhile isSpaceChar).reverse)

/-- Model of Python `str.capitalize()` (used at line 37 of clean_data.py):
first character upper-cased, every following character lower-cased. -/
def pyCapitalize (s : String) : String :=
  match s.data with
  | [] => ""
  | c :: cs => String.mk (c.toUpper :: cs.map Char.toLower)

/-- Value of a list of decimal digit characters read as a base-10 numeral
(non-digit characters never reach this function in the pipeline). -/
def digitsToNat (l : List Char) : ℕ :=
  l.foldl (fun n c => 10 * n + (c.toNat - 48)) 0

/-- Coarse model of Python `float()` applied to a string known to consist
of digit and dot characters only (exactly what `clean_cost` feeds it after
the regex `re.sub(r'[^\d.]', '', value_str)`): it succeeds iff there is at
least one digit and at most one dot, reading `ip.fp` as
`ip + fp / 10^len(fp)`; otherwise `float` raises `ValueError`, modelled as
`none`. The value is kept as an exact rational: rounding to double and the
saturation of CPython's string conversion to infinity on out-of-range
values are ignored here, which is adequate for the small, exactly
representable values the other claims exercise; `pyFloatOfCleanedChecked`
below refines this model with the overflow-to-infinity behaviour. -/
def pyFloatOfCleaned (l : List Char) : Option ℚ :=
  if (l.any fun c => c.isDigit) ∧ l.count '.' ≤ 1 then
    let ip := l.takeWhile fun c => c != '.'
    let fp := (l.dropWhile fun c => c != '.').drop 1
    some ((digitsToNat ip : ℚ) + (digitsToNat fp : ℚ) / (10 : ℚ) ^ fp.length)
  else none

/-- Embedding of `clean_cost` (clean_data.py lines 45-63): `None`/NaN maps
to NaN; a value with no digit character maps to NaN; otherwise every
character that is not a digit or a dot is stripped and the remainder parsed
with `float`, a `ValueError` being coerced to NaN. -/
def clean_cost (value : Option String) : Option ℚ :=
  match value with
  | none => none
  | some v =>
    let value_str := pyStrip v
    if value_str.data.any (fun c => c.isDigit) then
      pyFloatOfCleaned (value_str.data.filter fun c => c.isDigit || c == '.')
    else none

/-- Outcome of CPython `float()` on a digit/dot string: a finite double or
positive infinity. (A negative outcome cannot arise in `clean_cost`, since
the regex strips every minus sign; NaN cannot arise from a digit/dot
string.) -/
inductive PyFloatVal where
  | finite (q : ℚ)
  | inf
deriving DecidableEq

/-- The threshold at and above which CPython `float()` rounds a decimal
string to infinity: 2^1024 - 2^970, the midpoint between the largest
double (2^1024 - 2^971) and 2^1024. Correctly rounded conversion with
ties-to-even sends the midpoint and everything above it to 2^1024, which
is out of range, so the conversion returns inf (string conversion
saturates; it does not raise OverflowError). -/
def floatOverflowBound : ℚ :=
  ((2 ^ 1024 - 2 ^ 970 : ℕ) : ℚ)

/-- Refined model of Python `float()` on digit/dot strings: same parse as
`pyFloatOfCleaned`, but a parsed value at or above `floatOverflowBound`
saturates to infinity, as CPython's string-to-float conversion does (for
instance `float("9" * 400)` is `inf`, not an error). -/
def pyFloatOfCleanedChecked (l : List Char) : Option PyFloatVal :=
  match pyFloatOfCleaned l with
  | none => none
  | some q =>
    some (if floatOverflowBound ≤ q then PyFloatVal.inf else PyFloatVal.finite q)

/-- Refined embedding of `clean_cost` (lines 45-63) over the overflow-aware
float model: identical control flow to `clean_cost`, differing only in that
the final `float(cleaned)` call saturates to infinity on out-of-range
values instead of producing an unbounded rational. -/
def clean_cost_checked (value : Option String) : Option PyFloatVal :=
  match value with
  | none => none
  | some v =>
    let value_str := pyStrip v
    if value_str.data.any (fun c => c.isDigit) then
      pyFloatOfCleanedChecked (value_str.data.filter fun c => c.isDigit || c == '.')
    else none

/-- Strict full-string float parse: succeeds only when every character is a
digit or a dot (with at least one digit, at most one dot). -/
def pyFloatStrict (l : List Char) : Option ℚ :=
  if l.all (fun c => c.isDigit || c == '.') then pyFloatOfCleaned l else none

/-- Model of `pd.to_numeric(cell, errors='coerce')` on one cell (line 72):
a missing cell stays missing; a string cell is parsed as a signed decimal
literal after trimming surrounding whitespace, and any string that is not
entirely such a literal (for instance `"150 pcs"`) is coerced to NaN.
Exponent notation is not modelled; no claim involves it. -/
def to_numeric (value : Option String) : Option ℚ :=
  match value with
  | none => none
  | some v =>
    match (pyStrip v).data with
    | '-' :: rest => (pyFloatStrict rest).map (fun q => -q)
    | '+' :: rest => pyFloatStrict rest
    | l => pyFloatStrict l

/-- Embedding of the Current_Stock pipeline stages (lines 72-85): coerce to
numeric with errors coerced to NaN, clamp negative values to 0, then fill
the remaining NaN with 0. -/
def cleanStock (raw : Option String) : ℚ :=
  ((to_numeric raw).map fun q => if q < 0 then 0 else q).getD 0

/-- Model of `pandas.Series.median()` over the non-null values of a column
(NaN entries are dropped before the call in the pipeline model): `none` on
the empty list, the middle element of the sorted list for odd length, the
mean of the two middle elements for even length. -/
def median (l : List ℚ) : Option ℚ :=
  let s := l.insertionSort (· ≤ ·)
  let n := s.length
  if n = 0 then none
  else if n % 2 = 1 then some (s.getD (n / 2) 0)
  else some ((s.getD (n / 2 - 1) 0 + s.getD (n / 2) 0) / 2)

/-- One row of the raw input table, conforming to the required raw schema of
the spec (required columns present; `Daily_Demand_Est` nullable as the data
generator emits NaN there; the two `_Raw` columns heterogeneous). -/
structure RawRow where
  Product_ID : String
  Category : String
  Unit_Cost_Raw : Option String
  Current_Stock_Raw : Option String
  Daily_Demand_Est : Option ℚ
  Safety_Stock_Target : ℚ
  Vendor_Name : String
  Lead_Time_Days : ℚ
deriving DecidableEq

/-- One row of the cleaned output table, carrying exactly the 11 projected
output columns of clean_data.py lines 149-153. -/
structure CleanRow where
  Product_ID : String
  Category : String
  Unit_Cost : Option ℚ
  Current_Stock : ℚ
  Daily_Demand_Est : Option ℚ
  Safety_Stock_Target : ℚ
  Vendor_Name : String
  Lead_Time_Days : ℚ
  Reorder_Point : Option ℚ
  Stock_Status : String
  Inventory_Value : Option ℚ
deriving DecidableEq

/-- The non-null parsed costs of one category: embedding of the grouped
column `x` seen by the lambda of lines 91-93 (with NaN dropped, as
`x.median()` drops them). -/
def catCosts (pairs : List (String × Option ℚ)) (cat : String) : List ℚ :=
  (pairs.filter fun p => p.1 == cat).filterMap Prod.snd

/-- Per-category imputation of one cell (the lambda of lines 91-93):
a non-null parsed cost is kept, a null one becomes the median of the
non-null parsed costs of its category (still null if there are none). -/
def step1Val (pairs : List (String × Option ℚ)) (p : String × Option ℚ) : Option ℚ :=
  match p.2 with
  | some q => some q
  | none => median (catCosts pairs p.1)

/-- The Unit_Cost column after the per-category `transform` of lines 91-93. -/
def imputeStep1 (pairs : List (String × Option ℚ)) : List (Option ℚ) :=
  pairs.map (step1Val pairs)

/-- The global fallback fill value of line 96: the median of the Unit_Cost
column as it stands after per-category imputation. -/
def globalFill (pairs : List (String × Option ℚ)) : Option ℚ :=
  median ((imputeStep1 pairs).filterMap id)

/-- Model of `Series.fillna(g)` on one cell. -/
def fillWith (g : Option ℚ) (v : Option ℚ) : Option ℚ :=
  match v with
  | some q => some q
  | none => g

/-- The Unit_Cost column after both imputation tiers (lines 91-96), given
the (Category, parsed cost) pairs of all rows. -/
def imputeCosts (pairs : List (String × Option ℚ)) : List (Option ℚ) :=
  (imputeStep1 pairs).map (fillWith (globalFill pairs))

/-- The comparison `stock < rp` under the source's NaN semantics: a
comparison against NaN is false. -/
def ltOpt (a : ℚ) (b : Option ℚ) : Bool :=
  match b with
  | some r => decide (a < r)
  | none => false

/-- Embedding of the Stock_Status lambda of lines 125-130. -/
def stock_status (stock : ℚ) (rp : Option ℚ) : String :=
  if stock = 0 then "Out of Stock"
  else if ltOpt stock rp then "Low Stock"
  else "Normal Stock"

/-- All per-row pipeline stages, given the row's final imputed Unit_Cost
(which is the only stage needing the whole table): trimming and Category
normalisation (lines 29, 37, 102), stock cleaning (lines 72-85), clamping
(lines 108-111, where `clip` leaves NaN untouched), and the derived fields
(lines 120-134). -/
def cleanRow (r : RawRow) (cost : Option ℚ) : CleanRow :=
  let stock := cleanStock r.Current_Stock_Raw
  let demand := r.Daily_Demand_Est.map fun q => max q 0
  let safety := max r.Safety_Stock_Target 0
  let lead := max r.Lead_Time_Days 1
  let rp := demand.map fun d => d * lead + safety
  { Product_ID := pyStrip r.Product_ID
    Category := pyCapitalize (pyStrip r.Category)
    Unit_Cost := cost
    Current_Stock := stock
    Daily_Demand_Est := demand
    Safety_Stock_Target := safety
    Vendor_Name := pyStrip r.Vendor_Name
    Lead_Time_Days := lead
    Reorder_Point := rp
    Stock_Status := stock_status stock rp
    Inventory_Value := cost.map fun c => stock * c }

/-- The (normalised Category, parsed Unit_Cost) pairs of all rows, the
grouping input of lines 91-96 (Category is normalised at line 37, before
imputation). -/
def parsedPairs (rows : List RawRow) : List (String × Option ℚ) :=
  rows.map fun r => (pyCapitalize (pyStrip r.Category), clean_cost r.Unit_Cost_Raw)

/-- Embedding of the whole cleaning pipeline `clean_supply_chain_data`
(file I/O and logging aside): impute the Unit_Cost column over the whole
table, then apply every per-row stage. -/
def clean_supply_chain_data (rows : List RawRow) : List CleanRow :=
  (rows.zip (imputeCosts (parsedPairs rows))).map fun p => cleanRow p.1 p.2

/-! Concrete tables used by counterexamples and witnesses. -/

/-- A raw row with unparseable cost and missing demand estimate. -/
def rawNullDemand : RawRow :=
  { Product_ID := " SKU-A1 ", Category := "ELECTRONICS",
    Unit_Cost_Raw := some "Quote Pending", Current_Stock_Raw := some "5",
    Daily_Demand_Est := none, Safety_Stock_Target := 2,
    Vendor_Name := "Tokyo Electronics", Lead_Time_Days := 4 }

/-- A raw row with unparseable cost but a present demand estimate. -/
def rawWithDemand : RawRow :=
  { Product_ID := "SKU-B2", Category := "Home",
    Unit_Cost_Raw := some "Quote Pending", Current_Stock_Raw := none,
    Daily_Demand_Est := some 3, Safety_Stock_Target := 10,
    Vendor_Name := "Kyoto Crafts", Lead_Time_Days := 4 }

/-- A raw row whose cost parses, used to discharge the at-least-one-parsed
cost hypothesis of the amended invariants. -/
def rawParsedCost : RawRow :=
  { Product_ID := "SKU-C3", Category := "Food",
    Unit_Cost_Raw := some "$12.50", Current_Stock_Raw := some "7",
    Daily_Demand_Est := some 2, Safety_Stock_Target := 5,
    Vendor_Name := "Hokkaido Foods", Lead_Time_Days := 0 }

/-- Helper building a raw row that only varies in Category and raw cost. -/
def rawOf (cat : String) (cost : Option String) : RawRow :=
  { Product_ID := "SKU-X0", Category := cat,
    Unit_Cost_Raw := cost, Current_Stock_Raw := some "1",
    Daily_Demand_Est := some 1, Safety_Stock_Target := 1,
    Vendor_Name := "Osaka Supplies", Lead_Time_Days := 3 }

/-- Five-row table separating the two readings of the global fallback: the
Electronics nulls are imputed to 3/2 first, which changes the overall
median used at line 96. -/
def imputationTable : List RawRow :=
  [rawOf "Electronics" (some "1"), rawOf "Electronics" (some "2"),
   rawOf "Electronics" none, rawOf "Home" (some "10"), rawOf "Food" none]

/-- Four-row table whose Electronics nulls are imputed from costs 10, 20, 30. -/
def medianWitnessTable : List RawRow :=
  [rawOf "Electronics" (some "10"), rawOf "Electronics" (some "20"),
   rawOf "Electronics" (some "30"), rawOf "Electronics" none]

/-- Three-row table with the three raw Category spellings of the claim. -/
def categoryTable : List RawRow :=
  [rawOf "ELECTRONICS" (some "5"), rawOf "electronics " (some "5"),
   rawOf "Electronics" (some "5")]

/-- The cleaned row produced from `rawNullDemand` when it is the whole
table (its cost is null and the table has no parseable cost at all). -/
def cleanedNullDemandRow : CleanRow :=
  cleanRow rawNullDemand none

/-- The cleaned row produced from `rawParsedCost` when it is the whole
table (its cost "$12.50" parses to 12.5 and is kept by imputation). -/
def cleanedParsedCostRow : CleanRow :=
  cleanRow rawParsedCost (some (12.5 : ℚ))

/-! Helper lemmas. Batteries marks the rational operations irreducible for
performance; they are restored to their definitional behaviour so that
closed pipeline runs can be settled by `decide`. -/

attribute [local semireducible] Rat.add Rat.mul Rat.inv Rat.sub Rat.ofScientific

theorem getD_mem_of_lt (l : List ℚ) (i : ℕ) (h : i < l.length) : l.getD i 0 ∈ l := by
  rw [List.getD_eq_getElem?_getD, List.getElem?_eq_getElem h]
  exact List.getElem_mem h

theorem median_isSome_of_ne_nil {l : List ℚ} (h : l ≠ []) : ∃ m, median l = some m := by
  unfold median
  have hz : (l.insertionSort (· ≤ ·)).length ≠ 0 := by
    simp only [List.length_insertionSort]
    exact fun h0 => h (List.length_eq_zero.mp h0)
  simp only [if_neg hz]
  split
  · exact ⟨_, rfl⟩
  · exact ⟨_, rfl⟩

theorem median_nonneg {l : List ℚ} (h0 : ∀ x ∈ l, 0 ≤ x) {m : ℚ}
    (hm : median l = some m) : 0 ≤ m := by
  have hs : ∀ x ∈ l.insertionSort (· ≤ ·), 0 ≤ x := fun x hx =>
    h0 x ((List.mem_insertionSort (· ≤ ·)).mp hx)
  unfold median at hm
  by_cases hz : (l.insertionSort (· ≤ ·)).length = 0
  · rw [if_pos hz] at hm
    exact absurd hm (by simp)
  · rw [if_neg hz] at hm
    split at hm
    · injection hm with hm
      subst hm
      exact hs _ (getD_mem_of_lt _ _ (by omega))
    · injection hm with hm
      subst hm
      have h1 := hs _ (getD_mem_of_lt (l.insertionSort (· ≤ ·)) _ (show (l.insertionSort (· ≤ ·)).length / 2 - 1 < (l.insertionSort (· ≤ ·)).length by omega))
      have h2 := hs _ (getD_mem_of_lt (l.insertionSort (· ≤ ·)) _ (show (l.insertionSort (· ≤ ·)).length / 2 < (l.insertionSort (· ≤ ·)).length by omega))
      positivity

theorem pyFloatOfCleaned_nonneg {l : List Char} {q : ℚ}
    (h : pyFloatOfCleaned l = some q) : 0 ≤ q := by
  unfold pyFloatOfCleaned at h
  split at h
  · injection h with h
    subst h
    positivity
  · exact absurd h (by simp)

theorem clean_cost_nonneg {v : Option String} {q : ℚ}
    (h : clean_cost v = some q) : 0 ≤ q := by
  cases v with
  | none => exact absurd h (by simp [clean_cost])
  | some s =>
    unfold clean_cost at h
    dsimp only at h
    split at h
    · exact pyFloatOfCleaned_nonneg h
    · exact absurd h (by simp)

theorem parsedPairs_nonneg (rows : List RawRow) :
    ∀ p ∈ parsedPairs rows, ∀ q, p.2 = some q → 0 ≤ q := by
  intro p hp q hq
  rcases List.mem_map.mp hp with ⟨r, _, hr⟩
  subst hr
  exact clean_cost_nonneg hq

theorem catCosts_nonneg {pairs : List (String × Option ℚ)} (cat : String)
    (hp : ∀ p ∈ pairs, ∀ q, p.2 = some q → 0 ≤ q) :
    ∀ x ∈ catCosts pairs cat, 0 ≤ x := by
  intro x hx
  rcases List.mem_filterMap.mp hx with ⟨p, hpm, hpx⟩
  exact hp p (List.mem_of_mem_filter hpm) x hpx

theorem step1Val_nonneg {pairs : List (String × Option ℚ)}
    (hp : ∀ p ∈ pairs, ∀ q, p.2 = some q → 0 ≤ q)
    {p : String × Option ℚ} (hpm : p ∈ pairs) {q : ℚ}
    (h : step1Val pairs p = some q) : 0 ≤ q := by
  unfold step1Val at h
  split at h
  · rename_i q0 heq
    injection h with h
    subst h
    exact hp p hpm q0 heq
  · exact median_nonneg (catCosts_nonneg p.1 hp) h

theorem imputeStep1_nonneg {pairs : List (String × Option ℚ)}
    (hp : ∀ p ∈ pairs, ∀ q, p.2 = some q → 0 ≤ q) :
    ∀ v ∈ imputeStep1 pairs, ∀ q, v = some q → 0 ≤ q := by
  intro v hv q hq
  rcases List.mem_map.mp hv with ⟨p, hpm, hpv⟩
  subst hpv
  exact step1Val_nonneg hp hpm hq

theorem globalFill_nonneg {pairs : List (String × Option ℚ)}
    (hp : ∀ p ∈ pairs, ∀ q, p.2 = some q → 0 ≤ q) {g : ℚ}
    (h : globalFill pairs = some g) : 0 ≤ g := by
  refine median_nonneg ?_ h
  intro x hx
  rcases List.mem_filterMap.mp hx with ⟨v, hv, hvx⟩
  exact imputeStep1_nonneg hp v hv x hvx

theorem imputeCosts_nonneg {pairs : List (String × Option ℚ)}
    (hp : ∀ p ∈ pairs, ∀ q, p.2 = some q → 0 ≤ q) :
    ∀ c ∈ imputeCosts pairs, ∀ q, c = some q → 0 ≤ q := by
  intro c hc q hq
  rcases List.mem_map.mp hc with ⟨v, hv, hvc⟩
  subst hvc
  unfold fillWith at hq
  split at hq
  · rename_i q0
    injection hq with hq
    subst hq
    exact imputeStep1_nonneg hp _ hv q0 rfl
  · exact globalFill_nonneg hp hq

theorem globalFill_isSome {pairs : List (String × Option ℚ)}
    (hex : ∃ p ∈ pairs, p.2 ≠ none) : ∃ g, globalFill pairs = some g := by
  rcases hex with ⟨p, hpm, hpne⟩
  rcases Option.ne_none_iff_exists.mp hpne with ⟨q, hq⟩
  refine median_isSome_of_ne_nil (List.ne_nil_of_mem (a := q) ?_)
  refine List.mem_filterMap.mpr ⟨some q, ?_, rfl⟩
  refine List.mem_map.mpr ⟨p, hpm, ?_⟩
  unfold step1Val
  rw [← hq]

theorem imputeCosts_ne_none {pairs : List (String × Option ℚ)}
    (hex : ∃ p ∈ pairs, p.2 ≠ none) :
    ∀ c ∈ imputeCosts pairs, c ≠ none := by
  intro c hc
  rcases List.mem_map.mp hc with ⟨v, _, hvc⟩
  subst hvc
  rcases globalFill_isSome hex with ⟨g, hg⟩
  unfold fillWith
  split
  · exact Option.some_ne_none _
  · rw [hg]
    exact Option.some_ne_none _

theorem imputeCosts_length (pairs : List (String × Option ℚ)) :
    (imputeCosts pairs).length = pairs.length := by
  simp [imputeCosts, imputeStep1]

theorem parsedPairs_length (rows : List RawRow) :
    (parsedPairs rows).length = rows.length := by
  simp [parsedPairs]

theorem mem_clean_supply_chain_data {rows : List RawRow} {row : CleanRow}
    (h : row ∈ clean_supply_chain_data rows) :
    ∃ r c, r ∈ rows ∧ c ∈ imputeCosts (parsedPairs rows) ∧ row = cleanRow r c := by
  rcases List.mem_map.mp h with ⟨p, hpm, hpr⟩
  exact ⟨p.1, p.2, (List.of_mem_zip hpm).1, (List.of_mem_zip hpm).2, hpr.symm⟩

theorem getElem?_zip_eq {α β : Type} :
    ∀ (as : List α) (bs : List β) (i : ℕ) (a : α) (b : β),
      as[i]? = some a → bs[i]? = some b → (as.zip bs)[i]? = some (a, b) := by
  intro as
  induction as with
  | nil => intro bs i a b ha; simp at ha
  | cons x xs ih =>
    intro bs i a b ha hb
    cases bs with
    | nil => simp at hb
    | cons y ys =>
      cases i with
      | zero =>
        simp only [List.getElem?_cons_zero, Option.some_inj] at ha hb
        simp [List.zip_cons_cons, ha, hb]
      | succ n =>
        simp only [List.getElem?_cons_succ] at ha hb
        simpa [List.zip_cons_cons] using ih ys n a b ha hb

theorem median_nil : median [] = none := rfl

theorem cleanStock_nonneg (raw : Option String) : 0 ≤ cleanStock raw := by
  unfold cleanStock
  cases to_numeric raw with
  | none => simp
  | some q =>
    simp only [Option.map_some', Option.getD_some]
    split
    · exact le_refl 0
    · rename_i h
      exact le_of_not_lt h

theorem cleanRow_Unit_Cost (r : RawRow) (c : Option ℚ) :
    (cleanRow r c).Unit_Cost = c := rfl

theorem cleanRow_Current_Stock (r : RawRow) (c : Option ℚ) :
    (cleanRow r c).Current_Stock = cleanStock r.Current_Stock_Raw := rfl

theorem cleanRow_Daily_Demand_Est (r : RawRow) (c : Option ℚ) :
    (cleanRow r c).Daily_Demand_Est = r.Daily_Demand_Est.map (fun q => max q 0) := rfl

theorem cleanRow_Safety_Stock_Target (r : RawRow) (c : Option ℚ) :
    (cleanRow r c).Safety_Stock_Target = max r.Safety_Stock_Target 0 := rfl

theorem cleanRow_Lead_Time_Days (r : RawRow) (c : Option ℚ) :
    (cleanRow r c).Lead_Time_Days = max r.Lead_Time_Days 1 := rfl

theorem cleanRow_Reorder_Point (r : RawRow) (c : Option ℚ) :
    (cleanRow r c).Reorder_Point =
      (r.Daily_Demand_Est.map (fun q => max q 0)).map
        (fun d => d * max r.Lead_Time_Days 1 + max r.Safety_Stock_Target 0) := rfl

theorem cleanRow_Stock_Status (r : RawRow) (c : Option ℚ) :
    (cleanRow r c).Stock_Status =
      stock_status (cleanStock r.Current_Stock_Raw)
        ((r.Daily_Demand_Est.map (fun q => max q 0)).map
          (fun d => d * max r.Lead_Time_Days 1 + max r.Safety_Stock_Target 0)) := rfl

theorem cleanRow_Inventory_Value (r : RawRow) (c : Option ℚ) :
    (cleanRow r c).Inventory_Value =
      c.map (fun x => cleanStock r.Current_Stock_Raw * x) := rfl

/-! Claim theorems. -/

/-- C9: for every input table the pipeline preserves the row count exactly:
no row is deleted or added by any stage, and duplicate rows are processed
like any other row and retained. -/
theorem pipeline_preserves_row_count (rows : List RawRow) :
    (clean_supply_chain_data rows).length = rows.length := by
  unfold clean_supply_chain_data
  rw [List.length_map, List.length_zip, imputeCosts_length, parsedPairs_length,
    Nat.min_self]

/-- C5: Stock_Status is decided per row in this priority order: a stock of
exactly 0 gives "Out of Stock"; otherwise a stock below the reorder point
gives "Low Stock"; otherwise "Normal Stock". -/
theorem stock_status_priority (s r : ℚ) :
    (s = 0 → stock_status s (some r) = "Out of Stock") ∧
    (s ≠ 0 → s < r → stock_status s (some r) = "Low Stock") ∧
    (s ≠ 0 → r ≤ s → stock_status s (some r) = "Normal Stock") := by
  refine ⟨fun h => ?_, fun h hlt => ?_, fun h hge => ?_⟩
  · simp [stock_status, h]
  · simp [stock_status, h, ltOpt, hlt]
  · simp [stock_status, h, ltOpt, not_lt.mpr hge]

/-- Witness for C5 at the claim's three concrete inputs: stock 0 is
"Out of Stock", stock 5 against reorder point 10 is "Low Stock", stock 50
against reorder point 10 is "Normal Stock". -/
theorem stock_status_priority_witness :
    stock_status 0 (some 10) = "Out of Stock" ∧
    stock_status 5 (some 10) = "Low Stock" ∧
    stock_status 50 (some 10) = "Normal Stock" :=
  ⟨(stock_status_priority 0 10).1 rfl,
   (stock_status_priority 5 10).2.1 (by norm_num) (by norm_num),
   (stock_status_priority 50 10).2.2 (by norm_num) (by norm_num)⟩

/-- C3: the cost parser maps null to null, digitless text to null, and
otherwise strips every character other than a digit or a decimal point and
parses the remainder, on all six examples of the claim. -/
theorem clean_cost_examples :
    clean_cost none = none ∧
    clean_cost (some "$123.45") = some (123.45 : ℚ) ∧
    clean_cost (some "USD 80.00") = some 80 ∧
    clean_cost (some "1,200.00") = some 1200 ∧
    clean_cost (some "Quote Pending") = none ∧
    clean_cost (some "42.5") = some (42.5 : ℚ) := by
  refine ⟨rfl, ?_, ?_, ?_, ?_, ?_⟩ <;> decide

set_option maxRecDepth 8000 in
/-- C7 counterexample: an overlong all-digit string passes the digit check
and the regex unchanged, and CPython `float()` saturates its value to
infinity instead of raising or returning null, so on the string of 400
nines the parser's result is neither null nor a finite float. -/
theorem clean_cost_overflow_counterexample :
    clean_cost_checked (some (String.mk (List.replicate 400 '9'))) =
      some PyFloatVal.inf := by
  decide

/-- C7 amended: the cost parser is total and never raises: every input
(number rendered as text, null, or arbitrary string) yields null, a finite
non-negative float below the overflow threshold, or positive infinity for
parsed values at or above that threshold; a malformed leftover with
several decimal points is unparseable rather than an error. -/
theorem clean_cost_total_nonneg_amended :
    (∀ value : Option String,
        clean_cost_checked value = none ∨
        (∃ q : ℚ, clean_cost_checked value = some (PyFloatVal.finite q) ∧
          0 ≤ q ∧ q < floatOverflowBound) ∨
        clean_cost_checked value = some PyFloatVal.inf) ∧
    clean_cost_checked (some "1.2.3") = none := by
  constructor
  · intro value
    cases value with
    | none => exact Or.inl rfl
    | some s =>
      unfold clean_cost_checked
      dsimp only
      split
      · unfold pyFloatOfCleanedChecked
        cases h : pyFloatOfCleaned
            ((pyStrip s).data.filter fun c => c.isDigit || c == '.') with
        | none => exact Or.inl rfl
        | some q =>
          dsimp only
          by_cases hb : floatOverflowBound ≤ q
          · rw [if_pos hb]
            exact Or.inr (Or.inr rfl)
          · rw [if_neg hb]
            exact Or.inr (Or.inl ⟨q, rfl, pyFloatOfCleaned_nonneg h, not_le.mp hb⟩)
      · exact Or.inl rfl
  · decide

/-- C8: Category normalisation trims and then capitalises, so the three
raw spellings of the claim collapse to the single value "Electronics",
both on the normaliser itself and through the whole pipeline. -/
theorem category_normalization_collapses :
    pyCapitalize (pyStrip "ELECTRONICS") = "Electronics" ∧
    pyCapitalize (pyStrip "electronics ") = "Electronics" ∧
    pyCapitalize (pyStrip "Electronics") = "Electronics" ∧
    (clean_supply_chain_data categoryTable).map (fun row => row.Category) =
      ["Electronics", "Electronics", "Electronics"] := by
  refine ⟨?_, ?_, ?_, ?_⟩ <;> decide

/-- C2 counterexample: the stock parser does not discard a trailing unit
suffix: `pd.to_numeric` with errors coerced coerces the whole string
"150 pcs" to NaN, and the null-imputation stage then fills the stock with
0, not with 150. -/
theorem stock_parser_suffix_counterexample :
    to_numeric (some "150 pcs") = none ∧ cleanStock (some "150 pcs") = 0 := by
  constructor <;> decide

/-- C2 amended: a string with a trailing unit suffix fails the numeric
parse entirely and becomes null (subsequently filled with 0); only strings
that are in full numeric literals parse, and a non-negative parsed value
passes the later stages unchanged. -/
theorem stock_parser_amended :
    to_numeric (some "150 pcs") = none ∧
    cleanStock (some "150 pcs") = 0 ∧
    to_numeric (some "150") = some 150 ∧
    cleanStock (some "-30") = 0 ∧
    cleanStock none = 0 ∧
    (∀ raw q, to_numeric raw = some q → 0 ≤ q → cleanStock raw = q) := by
  refine ⟨by decide, by decide, by decide, by decide, rfl, ?_⟩
  intro raw q h hq
  unfold cleanStock
  rw [h]
  simp only [Option.map_some', Option.getD_some, if_neg (not_lt.mpr hq)]

/-- Witness for the amended C2: the fully numeric string "150" parses and
is kept as stock 150. -/
theorem stock_parser_amended_witness : cleanStock (some "150") = 150 :=
  stock_parser_amended.2.2.2.2.2 (some "150") 150 (by decide) (by norm_num)

/-- C10: a cleaned row whose Daily_Demand_Est is null has a null
Reorder_Point, and its Stock_Status is "Out of Stock" exactly when the
stock is 0 and "Normal Stock" otherwise (the comparison against NaN is
false, taking the default branch); such a row is never "Low Stock". -/
theorem null_demand_rows_never_low_stock (rows : List RawRow) (row : CleanRow)
    (hmem : row ∈ clean_supply_chain_data rows)
    (hnull : row.Daily_Demand_Est = none) :
    row.Reorder_Point = none ∧
    row.Stock_Status =
      (if row.Current_Stock = 0 then "Out of Stock" else "Normal Stock") ∧
    row.Stock_Status ≠ "Low Stock" := by
  rcases mem_clean_supply_chain_data hmem with ⟨r, c, _, _, rfl⟩
  rw [cleanRow_Daily_Demand_Est, Option.map_eq_none'] at hnull
  refine ⟨?_, ?_, ?_⟩
  · rw [cleanRow_Reorder_Point, hnull]
    rfl
  · rw [cleanRow_Stock_Status, cleanRow_Current_Stock, hnull]
    simp [stock_status, ltOpt]
  · rw [cleanRow_Stock_Status, hnull]
    simp only [Option.map_none', stock_status, ltOpt, Bool.false_eq_true, if_false]
    split
    · decide
    · decide

/-- Witness for C10: the one-row table whose only row misses its demand
estimate; the cleaned row has stock 5, hence status "Normal Stock". -/
theorem null_demand_rows_never_low_stock_witness :
    cleanedNullDemandRow.Reorder_Point = none ∧
    cleanedNullDemandRow.Stock_Status =
      (if cleanedNullDemandRow.Current_Stock = 0
        then "Out of Stock" else "Normal Stock") ∧
    cleanedNullDemandRow.Stock_Status ≠ "Low Stock" :=
  null_demand_rows_never_low_stock [rawNullDemand] cleanedNullDemandRow
    (by decide) (by decide)

/-- C1 counterexample: on a schema-conforming two-row table whose costs are
all unparseable and whose first row misses Daily_Demand_Est, the output
table contains null Daily_Demand_Est, Reorder_Point and Unit_Cost values,
refuting the unconditional no-null invariant (the second row, with demand
3, lead time 4 and safety stock 10, gets reorder point 22 but still a null
cost). -/
theorem output_nonnull_counterexample :
    (clean_supply_chain_data [rawNullDemand, rawWithDemand]).map
        (fun row => (row.Daily_Demand_Est, row.Reorder_Point, row.Unit_Cost)) =
      [(none, none, none), (some 3, some 22, none)] := by
  decide

/-- C1 amended: provided at least one row of the table has a parseable
cost, every output column is non-null except Daily_Demand_Est and
Reorder_Point, which are null exactly on rows whose input demand estimate
is missing; the numeric bounds hold: Current_Stock ≥ 0,
Safety_Stock_Target ≥ 0, Daily_Demand_Est ≥ 0 when present, and
Lead_Time_Days ≥ 1. (String columns are non-null by the raw schema.) -/
theorem output_nonnull_amended (rows : List RawRow)
    (hcost : ∃ p ∈ parsedPairs rows, p.2 ≠ none) :
    ∀ row ∈ clean_supply_chain_data rows,
      row.Unit_Cost ≠ none ∧
      row.Inventory_Value ≠ none ∧
      0 ≤ row.Current_Stock ∧
      0 ≤ row.Safety_Stock_Target ∧
      1 ≤ row.Lead_Time_Days ∧
      (∀ d, row.Daily_Demand_Est = some d → 0 ≤ d) ∧
      (row.Daily_Demand_Est = none ↔ row.Reorder_Point = none) := by
  intro row hmem
  rcases mem_clean_supply_chain_data hmem with ⟨r, c, hr, hc, rfl⟩
  have hcne : c ≠ none := imputeCosts_ne_none hcost c hc
  refine ⟨hcne, ?_, cleanStock_nonneg _, le_max_right _ _, le_max_right _ _, ?_, ?_⟩
  · rw [cleanRow_Inventory_Value]
    intro h
    exact hcne (Option.map_eq_none'.mp h)
  · intro d hd
    rw [cleanRow_Daily_Demand_Est, Option.map_eq_some'] at hd
    rcases hd with ⟨q, _, hq⟩
    rw [← hq]
    exact le_max_right q 0
  · rw [cleanRow_Daily_Demand_Est, cleanRow_Reorder_Point,
      Option.map_eq_none', Option.map_eq_none', Option.map_eq_none']

/-- Witness for the amended C1: the one-row table built from
`rawParsedCost`, whose cost "$12.50" parses to 12.5. -/
theorem output_nonnull_amended_witness :
    cleanedParsedCostRow.Unit_Cost ≠ none ∧
    cleanedParsedCostRow.Inventory_Value ≠ none ∧
    0 ≤ cleanedParsedCostRow.Current_Stock ∧
    0 ≤ cleanedParsedCostRow.Safety_Stock_Target ∧
    1 ≤ cleanedParsedCostRow.Lead_Time_Days ∧
    (∀ d, cleanedParsedCostRow.Daily_Demand_Est = some d → 0 ≤ d) ∧
    (cleanedParsedCostRow.Daily_Demand_Est = none ↔
      cleanedParsedCostRow.Reorder_Point = none) :=
  output_nonnull_amended [rawParsedCost]
    ⟨("Food", some (12.5 : ℚ)), by decide, by decide⟩
    cleanedParsedCostRow (by decide)

/-- C6 counterexample: a single-row table whose only cost is unparseable
leaves even the global fallback median undefined, so the output Unit_Cost
is still null, refuting the unconditional non-null part of the claim. -/
theorem row_bounds_counterexample :
    (clean_supply_chain_data [rawWithDemand]).map (fun row => row.Unit_Cost) =
      [none] := by
  decide

/-- C6 amended: provided at least one row of the table has a parseable
cost, every cleaned row satisfies Current_Stock ≥ 0, Lead_Time_Days ≥ 1,
Safety_Stock_Target ≥ 0, and has a non-null, non-negative Unit_Cost. -/
theorem row_bounds_amended (rows : List RawRow)
    (hcost : ∃ p ∈ parsedPairs rows, p.2 ≠ none) :
    ∀ row ∈ clean_supply_chain_data rows,
      0 ≤ row.Current_Stock ∧ 1 ≤ row.Lead_Time_Days ∧
      0 ≤ row.Safety_Stock_Target ∧
      ∃ q, row.Unit_Cost = some q ∧ 0 ≤ q := by
  intro row hmem
  rcases mem_clean_supply_chain_data hmem with ⟨r, c, hr, hc, rfl⟩
  refine ⟨cleanStock_nonneg _, le_max_right _ _, le_max_right _ _, ?_⟩
  have hcne : c ≠ none := imputeCosts_ne_none hcost c hc
  rcases Option.ne_none_iff_exists'.mp hcne with ⟨q, hq⟩
  exact ⟨q, hq, imputeCosts_nonneg (parsedPairs_nonneg rows) c hc q hq⟩

/-- Witness for the amended C6, on the same one-row table with the
parseable cost "$12.50". -/
theorem row_bounds_amended_witness :
    0 ≤ cleanedParsedCostRow.Current_Stock ∧
    1 ≤ cleanedParsedCostRow.Lead_Time_Days ∧
    0 ≤ cleanedParsedCostRow.Safety_Stock_Target ∧
    ∃ q, cleanedParsedCostRow.Unit_Cost = some q ∧ 0 ≤ q :=
  row_bounds_amended [rawParsedCost]
    ⟨("Food", some (12.5 : ℚ)), by decide, by decide⟩
    cleanedParsedCostRow (by decide)

/-- Index form of the pipeline: the i-th output row is `cleanRow` of the
i-th input row and the i-th imputed cost. -/
theorem clean_supply_chain_data_getElem (rows : List RawRow) (i : ℕ)
    (r : RawRow) (c : Option ℚ) (hr : rows[i]? = some r)
    (hc : (imputeCosts (parsedPairs rows))[i]? = some c) :
    (clean_supply_chain_data rows)[i]? = some (cleanRow r c) := by
  unfold clean_supply_chain_data
  rw [List.getElem?_map, getElem?_zip_eq rows _ i r c hr hc]
  rfl

/-- C4 counterexample: on `imputationTable` the Food category has no
parseable cost, and the claim's fill value for its null — the global
median across all categories, `median [1, 2, 10] = 2` — differs from what
the code computes: the Electronics null is first imputed to 3/2, and the
global fallback of line 96 is the median of the column after that
imputation, 7/4. -/
theorem cost_imputation_counterexample :
    (clean_supply_chain_data imputationTable).map (fun row => row.Unit_Cost) =
      [some 1, some 2, some (3 / 2 : ℚ), some 10, some (7 / 4 : ℚ)] ∧
    median ((parsedPairs imputationTable).filterMap Prod.snd) = some 2 ∧
    (7 / 4 : ℚ) ≠ 2 := by
  refine ⟨?_, ?_, ?_⟩ <;> decide

/-- C4 amended: imputation of a null parsed cost is two-tier and in this
order — if the row's category has at least one non-null parsed cost the
null becomes the median of those costs; if the category has none it
becomes the global fallback of line 96, namely the median of the Unit_Cost
column after per-category imputation (not the median of the raw parsed
costs); the imputed column is what lands in the output rows. -/
theorem cost_imputation_amended (rows : List RawRow) (i : ℕ) (cat : String)
    (hp : (parsedPairs rows)[i]? = some (cat, none)) :
    (catCosts (parsedPairs rows) cat ≠ [] →
      (imputeCosts (parsedPairs rows))[i]? =
        some (median (catCosts (parsedPairs rows) cat))) ∧
    (catCosts (parsedPairs rows) cat = [] →
      (imputeCosts (parsedPairs rows))[i]? =
        some (globalFill (parsedPairs rows))) ∧
    (∀ row c, (clean_supply_chain_data rows)[i]? = some row →
      (imputeCosts (parsedPairs rows))[i]? = some c →
      row.Unit_Cost = c) := by
  have hstep : (imputeStep1 (parsedPairs rows))[i]? =
      some (median (catCosts (parsedPairs rows) cat)) := by
    unfold imputeStep1
    rw [List.getElem?_map, hp]
    rfl
  have hcosts : (imputeCosts (parsedPairs rows))[i]? =
      some (fillWith (globalFill (parsedPairs rows))
        (median (catCosts (parsedPairs rows) cat))) := by
    unfold imputeCosts
    rw [List.getElem?_map, hstep]
    rfl
  refine ⟨fun hne => ?_, fun hnil => ?_, fun row c hrow hc => ?_⟩
  · rcases median_isSome_of_ne_nil hne with ⟨m, hm⟩
    rw [hcosts, hm]
    rfl
  · rw [hcosts, hnil, median_nil]
    rfl
  · have hrw : ((parsedPairs rows)[i]? : Option (String × Option ℚ)) =
        (rows[i]?).map fun r => (pyCapitalize (pyStrip r.Category),
          clean_cost r.Unit_Cost_Raw) := by
      unfold parsedPairs
      rw [List.getElem?_map]
    rw [hrw] at hp
    rcases Option.map_eq_some'.mp hp with ⟨r, hr, _⟩
    rw [clean_supply_chain_data_getElem rows i r c hr hc] at hrow
    injection hrow with hrow
    rw [← hrow]
    rfl

/-- Witness for the amended C4: in `medianWitnessTable` the Electronics
null (row 3) is imputed with the median of the non-null Electronics costs
[10, 20, 30], which is 20. -/
theorem cost_imputation_amended_witness :
    (imputeCosts (parsedPairs medianWitnessTable))[3]? =
      some (median (catCosts (parsedPairs medianWitnessTable) "Electronics")) ∧
    median (catCosts (parsedPairs medianWitnessTable) "Electronics") = some 20 :=
  ⟨(cost_imputation_amended medianWitnessTable 3 "Electronics" (by decide)).1
      (by decide),
   by decide⟩

end ChainInsight
